import Mathlib

/-!
# Verification of the ioBroker AC Infinity state-synchronization engine

A shallow embedding, in Lean 4, of the protocol-mapping, debounce and
session-guard logic of the ioBroker.acinfinity adapter (JavaScript), together
with proofs about the embedded definitions.

The embedding mirrors:

* `ACInfinityClient` (API client, `src/unnamed/part_003`): `login`,
  `apiCall` (automatic re-login on HTTP 401);
* `PortModeHandler` (`src/lib/handlers/portModeHandler.js`): the
  debounce/re-entrancy machinery of `handlePortModeChange`, the nested
  setting writers (`timer`, `cycle`, `schedule`, `auto`, `vpd`);
* `PortSettingsHandler` (`src/lib/handlers/portSettingsHandler.js`): the
  advanced-settings writers (dynamic temperatures, humidity, VPD);
* `PortUpdater` / `DeviceUpdater` (`src/lib/updaters/portUpdater.js`):
  the snapshot reconcilers (`updatePortModeStates`, `updatePortModeSettings`,
  `updateScheduleSettings`, `updateVpdModeSettings`, `updateSensorStates`).

JavaScript numbers that hold raw API values are modelled as `Int` (they are
fixed-point integers in the remote protocol); values exposed to the state
tree after scaling are modelled as `ℚ`.  `Math.round` is Mathlib's `round`
(round half towards +infinity, as in JavaScript), `Math.floor` division is
`Int.fdiv`.  Absent (`undefined`/`null`) raw fields are `Option.none`.
-/

namespace ACInfinity

/-! ## Constants (`src/unnamed/part_002`, `constants.js`) -/

/-- Constant `SCHEDULE_DISABLED_VALUE`: sentinel raw time meaning "disabled". -/
def SCHEDULE_DISABLED_VALUE : Int := 65535

/-- Constant `SCHEDULE_MIDNIGHT_VALUE`: default start time when first enabled. -/
def SCHEDULE_MIDNIGHT_VALUE : Int := 0

/-- Constant `SCHEDULE_EOD_VALUE`: default end time when first enabled (11:59pm). -/
def SCHEDULE_EOD_VALUE : Int := 1439

/-- Table `MODE_OPTIONS`: 0-based mode names; the API uses 1-based indices. -/
def MODE_OPTIONS : List String :=
  ["Off", "On", "Auto", "Timer to On", "Timer to Off", "Cycle", "Schedule", "VPD"]

/-! ## Shared numeric helpers

`parseFloat((x).toFixed(2))` on an exact rational is rounding to two decimal
places (JavaScript `toFixed` rounds to nearest); similarly for one decimal.
`Math.round` rounds half towards positive infinity, which is Mathlib's
`round`. -/

/-- JavaScript `parseFloat(x.toFixed(2))` on an exact rational argument. -/
def jsToFixed2 (q : ℚ) : ℚ := (round (q * 100) : ℤ) / 100

/-- JavaScript `parseFloat(x.toFixed(1))` on an exact rational argument. -/
def jsToFixed1 (q : ℚ) : ℚ := (round (q * 10) : ℤ) / 10

/-- JavaScript `Math.round` on an exact rational argument. -/
def jsMathRound (q : ℚ) : ℤ := round q

/-! ## `DeviceUpdater.updateSensorStates` (`portUpdater.js`, second file part)

The reconciler resolves each raw sensor field from the device record or its
`deviceInfo` sub-record, skips it unless it is a number, and otherwise writes
`parseFloat((v / 100).toFixed(2))` with `ack = true`. -/

/-- Raw device snapshot fields used by `updateSensorStates`: the sensor
fields may sit on the device record itself or inside `deviceInfo`. -/
structure DeviceSnapshot where
  temperature : Option Int
  humidity : Option Int
  vpdnums : Option Int
  infoTemperature : Option Int
  infoHumidity : Option Int
  infoVpdnums : Option Int

/-- Resolution `device.temperature !== undefined ? device.temperature :
(device.deviceInfo && device.deviceInfo.temperature)`. -/
def resolveSensorField (direct info : Option Int) : Option Int :=
  match direct with
  | some v => some v
  | none => info

/-- The value written for one raw sensor reading:
`parseFloat((v / 100).toFixed(2))`. -/
def sensorScaledValue (v : Int) : ℚ := jsToFixed2 ((v : ℚ) / 100)

/-- Model of `DeviceUpdater.updateSensorStates`: the three sensor node values that the
reconciler writes (`none` = the raw field is absent and the node is not
written). -/
def updateSensorStates (d : DeviceSnapshot) : Option ℚ × Option ℚ × Option ℚ :=
  ((resolveSensorField d.temperature d.infoTemperature).map sensorScaledValue,
   (resolveSensorField d.humidity d.infoHumidity).map sensorScaledValue,
   (resolveSensorField d.vpdnums d.infoVpdnums).map sensorScaledValue)

/-! ## VPD scaling (`PortUpdater.updateVpdModeSettings` and
`PortModeHandler.updateVpdModeSettings`) -/

/-- Reconciler side: `parseFloat((raw / 10).toFixed(1))` for the VPD
high/low triggers and target. -/
def vpdReconValue (v : Int) : ℚ := jsToFixed1 ((v : ℚ) / 10)

/-- Handler side: `Math.round(parseFloat(value) * 10)` for the VPD
high/low triggers and target. -/
def vpdWriteRaw (x : ℚ) : ℤ := jsMathRound (x * 10)

/-! ## Timer/cycle durations
(`PortModeHandler.handleNestedPortSettingsChange` sends
`parseInt(value) * 60`; `PortUpdater.updatePortModeSettings` maps the raw
value through `Math.floor(raw / 60)`). -/

/-- Handler side for `timer.toOnMinutes` / `timer.toOffMinutes` /
`cycle.onMinutes` / `cycle.offMinutes`: `parseInt(value) * 60`. -/
def minutesWriteRaw (m : Int) : Int := m * 60

/-- Reconciler side: `Math.floor(raw / 60)`. -/
def minutesReconValue (r : Int) : Int := Int.fdiv r 60

/-! ## Schedule handling

Reconciler: `PortUpdater.updateScheduleSettings` decodes the raw
`schedStartTime` / `schedEndtTime` fields.  Handler:
`PortModeHandler.handleNestedPortSettingsChange`, `case 'schedule'`. -/

/-- Padding `hours.toString().padStart(2, '0')`. -/
def pad2 (n : Nat) : String :=
  let s := toString n
  if s.length < 2 then "0" ++ s else s

/-- Time-string formatting used by the reconciler for an enabled raw time:
`` `${Math.floor(t/60).padStart(2,'0')}:${(t%60).padStart(2,'0')}` ``
(raw times coming from the API are non-negative, modelled as `Nat`). -/
def formatScheduleTime (t : Nat) : String :=
  pad2 (t / 60) ++ ":" ++ pad2 (t % 60)

/-- Result of reconciling one raw schedule time field: the `enabled` node
value, and the `HH:MM` node value when one is written. -/
structure ScheduleRecon where
  enabled : Bool
  timeString : Option String
deriving DecidableEq, Repr

/-- Model of `PortUpdater.updateScheduleSettings`, for one of the two raw time
fields (`none` = the raw field is not a number, nothing written). -/
def updateScheduleTime (raw : Option Nat) : Option ScheduleRecon :=
  match raw with
  | none => none
  | some t =>
      if (t : Int) ≠ SCHEDULE_DISABLED_VALUE then
        some ⟨true, some (formatScheduleTime t)⟩
      else
        some ⟨false, none⟩

/-- Handler side for `schedule.startEnabled` / `schedule.endEnabled`:
the raw value written is the sentinel when disabling, and
`SCHEDULE_MIDNIGHT_VALUE` (start) or `SCHEDULE_EOD_VALUE` (end) when
enabling. -/
def scheduleEnableRaw (isStart : Bool) (enabled : Bool) : Int :=
  if enabled then (if isStart then SCHEDULE_MIDNIGHT_VALUE else SCHEDULE_EOD_VALUE)
  else SCHEDULE_DISABLED_VALUE

/-- Leading-digit accumulation of JavaScript `parseInt`: consume decimal
digits, stop at the first non-digit. -/
def parseDigitsAux : List Char → Nat → Nat
  | [], acc => acc
  | c :: cs, acc =>
      if c.isDigit then parseDigitsAux cs (acc * 10 + (c.toNat - 48)) else acc

/-- JavaScript `parseInt` on a non-negative numeral: `none` models `NaN`
(no leading digit). -/
def jsParseIntNat (s : String) : Option Nat :=
  match s.data with
  | [] => none
  | c :: cs => if c.isDigit then some (parseDigitsAux cs (c.toNat - 48)) else none

/-- Character-level splitter modelling JavaScript `String.split(sep)`. -/
def jsSplitAux (sep : Char) : List Char → List Char → List String
  | [], acc => [String.mk acc.reverse]
  | c :: cs, acc =>
      if c = sep then String.mk acc.reverse :: jsSplitAux sep cs []
      else jsSplitAux sep cs (c :: acc)

/-- JavaScript `s.split(sep)` for a single-character separator. -/
def jsSplit (s : String) (sep : Char) : List String := jsSplitAux sep s.data []

/-- Handler side for `schedule.startTime` / `schedule.endTime`: split the
string on `:`; with exactly two parts the raw value sent is
`parseInt(hours) * 60 + parseInt(minutes)`; with any other number of parts
the write is dropped (`none` also models a `NaN` component). -/
def scheduleTimeStringRaw (s : String) : Option Nat :=
  match jsSplit s ':' with
  | [h, m] =>
      match jsParseIntNat h, jsParseIntNat m with
      | some hv, some mv => some (hv * 60 + mv)
      | _, _ => none
  | _ => none

/-! ## `PortUpdater.updatePortModeStates` — on-speed special case

```js
if (typeof portData.speak === 'number') {
  const isOn = (portData.atType === 2 || portData.curMode === 2);
  if (isOn && portData.speak > 0) { write onSpeed := portData.speak }
  else if (isOn && portData.speak === 0) {
    const currentSpeed = await getState(...mode.onSpeed);
    if (!currentSpeed || currentSpeed.val === 0) { write onSpeed := 3 }
  }
}
```
The function below returns the onSpeed node value after reconciling a
snapshot, given the node's prior value (`none` = node never written). -/

/-- Relevant port snapshot fields for `updatePortModeStates`. -/
structure PortSnapshot where
  atType : Option Int
  curMode : Option Int
  speak : Option Int

/-- Condition `const isOn = (portData.atType === 2 || portData.curMode === 2)`. -/
def portIsOn (p : PortSnapshot) : Bool :=
  p.atType = some 2 || p.curMode = some 2

/-- The `mode.onSpeed` node value after `updatePortModeStates` runs on
snapshot `p`, when its prior value was `prior`. -/
def reconcileOnSpeed (prior : Option Int) (p : PortSnapshot) : Option Int :=
  match p.speak with
  | none => prior
  | some speak =>
      if portIsOn p && speak > 0 then some speak
      else if portIsOn p && speak = 0 then
        match prior with
        | none => some 3
        | some c => if c = 0 then some 3 else some c
      else prior

/-! ## Temperature write transforms

`PortModeHandler.updateAutoModeSettings` writes both Celsius and Fahrenheit
raw fields for the auto-mode temperature settings, converting with
`Math.round(tempC * 1.8 + 32)`.

`PortSettingsHandler.handlePortAdvancedSettingsChange` writes both raw
fields for `dynamicTransitionTemp` / `dynamicBufferTemp`, but computes the
counterpart as `value * 2` (unit C) or `Math.floor(value / 2)` (unit F). -/

/-- Conversion `Math.round(tempC * 1.8 + 32)` — the Celsius-to-Fahrenheit conversion
used by the auto-mode temperature settings. -/
def celsiusToFahrenheit (c : Int) : Int := jsMathRound ((c : ℚ) * (9 / 5) + 32)

/-- Model of `PortModeHandler.updateAutoModeSettings`: raw field assignments made for
one `(setting, value)` pair (key strings are the raw API field names from
`PORT_CONTROL_KEY`).  Settings not listed here assign a single field or are
out of scope. -/
def autoModeTempAssignments (setting : String) (value : Int) :
    List (String × Int) :=
  if setting = "tempHighTrigger" then
    [("devHt", value), ("devHtf", celsiusToFahrenheit value)]
  else if setting = "tempLowTrigger" then
    [("devLt", value), ("devLtf", celsiusToFahrenheit value)]
  else if setting = "targetTemp" then
    [("targetTemp", value), ("targetTempF", celsiusToFahrenheit value)]
  else []

/-- Model of `PortSettingsHandler.handlePortAdvancedSettingsChange`: raw field
assignments for `dynamicTransitionTemp` (key strings are the raw API field
names from `ADVANCED_SETTINGS_KEY`). -/
def dynamicTransitionTempAssignments (isUnitC : Bool) (value : Int) :
    List (String × Int) :=
  if isUnitC then [("devTt", value), ("devTth", value * 2)]
  else [("devTt", Int.fdiv value 2), ("devTth", value)]

/-- Model of `PortSettingsHandler.handlePortAdvancedSettingsChange`: raw field
assignments for `dynamicBufferTemp`. -/
def dynamicBufferTempAssignments (isUnitC : Bool) (value : Int) :
    List (String × Int) :=
  if isUnitC then [("devBt", value), ("devBth", value * 2)]
  else [("devBt", Int.fdiv value 2), ("devBth", value)]

/-! ## `ACInfinityClient.login` (`src/unnamed/part_003`)

```js
const normalizedPassword = this.password.substring(0, 25);
const formData =
  `appEmail=${encodeURIComponent(this.email)}` +
  `&appPasswordl=${encodeURIComponent(normalizedPassword)}`;
```
`encodeURIComponent` percent-encodes every character outside the JS
unreserved set, byte-wise over its UTF-8 encoding. -/

/-- The characters `encodeURIComponent` leaves unescaped. -/
def uriUnreserved (c : Char) : Bool :=
  c.isAlphanum || c = '-' || c = '_' || c = '.' || c = '!' || c = '~' ||
    c = '*' || c = '\'' || c = '(' || c = ')'

/-- Upper-case hexadecimal digit for `n < 16`. -/
def hexDigit (n : Nat) : Char :=
  if n < 10 then Char.ofNat (48 + n) else Char.ofNat (55 + n)

/-- Percent `%XX` encoding of one byte. -/
def percentEncodeByte (b : Nat) : String :=
  "%" ++ String.mk [hexDigit (b / 16), hexDigit (b % 16)]

/-- UTF-8 bytes of a character (as `Nat`s below 256). -/
def utf8Bytes (c : Char) : List Nat :=
  let n := c.toNat
  if n < 128 then [n]
  else if n < 2048 then [192 + n / 64, 128 + n % 64]
  else if n < 65536 then [224 + n / 4096, 128 + (n / 64) % 64, 128 + n % 64]
  else [240 + n / 262144, 128 + (n / 4096) % 64, 128 + (n / 64) % 64,
        128 + n % 64]

/-- JavaScript `encodeURIComponent`. -/
def encodeURIComponent (s : String) : String :=
  s.data.foldl
    (fun acc c =>
      if uriUnreserved c then acc.push c
      else acc ++ String.join ((utf8Bytes c).map percentEncodeByte))
    ""

/-- Truncation `this.password.substring(0, 25)` — the password as normalized by
`login()` before any use. -/
def normalizedPassword (password : String) : String := password.take 25

/-- The form body of the login request built by `ACInfinityClient.login`. -/
def loginFormData (email password : String) : String :=
  "appEmail=" ++ encodeURIComponent email ++
    "&appPasswordl=" ++ encodeURIComponent (normalizedPassword password)

/-! ## `ACInfinityClient.apiCall` — session guard

```js
async apiCall(endpoint, data, needsAuth = true) {
  if (needsAuth && !this.isLoggedIn()) { await this.login(); }
  try {
    const response = await this.axiosInstance.post(...);
    if (response.data && response.data.code === 200) { return ...; }
    else { throw new Error(...); }                 // application error
  } catch (error) {
    if (error.response && error.response.status === 401 && needsAuth) {
      await this.login();
      return this.apiCall(endpoint, data, needsAuth);   // recursive retry
    }
    throw ...;                                     // surfaced
  }
}
```
The gateway is modelled by a script: a list of responses, one consumed per
POST attempt.  `login()` is assumed to succeed (each call is counted); the
result pairs the number of `login()` calls with the call's outcome. -/

/-- One scripted gateway response to a POST attempt. -/
inductive GwResp where
  /-- Transport success with application code 200. -/
  | ok (v : Int)
  /-- Transport success but non-200 application code (thrown as a plain
  `Error`, which has no `response` field, hence never retried). -/
  | appErr
  /-- HTTP 401: `error.response.status === 401`. -/
  | authErr
  /-- Any other HTTP error status. -/
  | httpErr (status : Nat)
deriving DecidableEq, Repr

/-- Outcome of an `apiCall` as seen by its caller. -/
inductive ApiResult where
  /-- The call returned `response.data.data`. -/
  | success (v : Int)
  /-- An error was surfaced (thrown) to the caller. -/
  | failure
  /-- The response script ran out (the call is still in flight). -/
  | pending
deriving DecidableEq, Repr

/-- The retry loop of `apiCall` once any initial login has happened:
consumes scripted responses, counting the `login()` calls made inside the
401 handler. -/
def apiCallLoop (needsAuth : Bool) : List GwResp → Nat × ApiResult
  | [] => (0, ApiResult.pending)
  | GwResp.ok v :: _ => (0, ApiResult.success v)
  | GwResp.appErr :: _ => (0, ApiResult.failure)
  | GwResp.httpErr _ :: _ => (0, ApiResult.failure)
  | GwResp.authErr :: rest =>
      if needsAuth then
        let r := apiCallLoop needsAuth rest
        (r.1 + 1, r.2)
      else (0, ApiResult.failure)

/-- Model of `ACInfinityClient.apiCall` on a scripted gateway: returns the total
number of `login()` calls and the outcome. -/
def apiCall (needsAuth loggedIn : Bool) (script : List GwResp) :
    Nat × ApiResult :=
  let pre : Nat := if needsAuth && !loggedIn then 1 else 0
  let r := apiCallLoop needsAuth script
  (pre + r.1, r.2)

/-! ## `PortModeHandler` debounce / re-entrancy machinery

```js
const updateKey = `${normalizedDeviceId}_${normalizedPortId}_${settingType}`;
if (this.processingUpdates.has(updateKey)) { return; }            // drop
if (this.pendingUpdates.has(updateKey)) {
  clearTimeout(this.pendingUpdates.get(updateKey));               // replace
}
const timerId = setTimeout(async () => {
  try {
    this.pendingUpdates.delete(updateKey);
    this.processingUpdates.set(updateKey, true);
    await this.processPortModeUpdate(...);                        // remote
  } catch (error) { ... } finally {
    this.processingUpdates.delete(updateKey);                     // always
  }
}, 200);
this.pendingUpdates.set(updateKey, timerId);
```

The two maps and the list of dispatched remote actions are modelled
explicitly; a scheduled timer is its captured value.  Firing a timer is
split into the start step (which deletes the pending entry, sets the
processing guard and dispatches the remote action) and the finish step (the
`finally` block, parameterized by whether the action succeeded). -/

/-- Key `` `${deviceId}_${portId}_${settingType}` `` where `settingType` is the
first path segment under `mode`. -/
def mkUpdateKey (deviceId : String) (portId : Int) (settingType : String) :
    String :=
  deviceId ++ "_" ++ toString portId ++ "_" ++ settingType

/-- State of the `PortModeHandler` debounce machinery.  `pending` maps a
key to the value captured by its scheduled timer; `processing` is the set
of keys with an in-flight action; `calls` records the dispatched remote
actions in order. -/
structure DebounceState where
  pending : List (String × Int)
  processing : List String
  calls : List (String × Int)
deriving DecidableEq, Repr

/-- The debounce state with no pending timer, no in-flight action, and no
dispatched call. -/
def DebounceState.init : DebounceState := ⟨[], [], []⟩

/-- Look up the pending timer value for a key. -/
def DebounceState.pendingFor (s : DebounceState) (key : String) :
    Option Int :=
  (s.pending.find? (fun e => e.1 = key)).map Prod.snd

/-- Model of `handlePortModeChange` restricted to its debounce bookkeeping: a write
for a key in `processingUpdates` is dropped; otherwise any pending timer
for the key is cancelled and a fresh 200 ms timer capturing `value` is
stored. -/
def handlePortModeChange (s : DebounceState) (key : String) (value : Int) :
    DebounceState :=
  if key ∈ s.processing then s
  else
    { s with
      pending := (key, value) :: s.pending.filter (fun e => e.1 ≠ key) }

/-- The timer callback up to its `await`: delete the pending entry, set the
processing guard, dispatch the remote action with the captured value.  A
cancelled (absent) timer never fires. -/
def fireTimerStart (s : DebounceState) (key : String) : DebounceState :=
  match s.pendingFor key with
  | none => s
  | some v =>
      { pending := s.pending.filter (fun e => e.1 ≠ key)
        processing := key :: s.processing
        calls := s.calls ++ [(key, v)] }

/-- The `finally` block of the timer callback: the processing guard for the
key is removed whether the action succeeded or failed. -/
def fireTimerFinish (s : DebounceState) (key : String) (_success : Bool) :
    DebounceState :=
  { s with processing := s.processing.filter (fun k => k ≠ key) }

/-- Fold a burst of writes (all to key `key`, all within the 200 ms window,
so each later write lands before the earlier timer fires) through
`handlePortModeChange`. -/
def writeBurst (s : DebounceState) (key : String) (values : List Int) :
    DebounceState :=
  values.foldl (fun st v => handlePortModeChange st key v) s

/-! ## `PortSettingsHandler.handlePortAdvancedSettingsChange`

Unlike the mode handler, the advanced-settings handler has no
`pendingUpdates`/`processingUpdates` maps and no timer: each recognized
write immediately awaits `client.updateAdvancedSettings`.  The function
below counts the remote calls issued for one write, following the `switch`
statement (every recognized case performs exactly one call; `deviceType` /
`dynamicResponse` only when the value maps to a valid index; the `default`
case performs none). -/

/-- The recognized advanced-settings names that unconditionally issue one
`updateAdvancedSettings` call. -/
def advancedSettingNames : List String :=
  ["dynamicTransitionTemp", "dynamicBufferTemp", "dynamicTransitionHumidity",
   "dynamicBufferHumidity", "dynamicTransitionVPD", "dynamicBufferVPD",
   "sunriseTimerEnabled", "sunriseTimerMinutes"]

/-- Number of remote calls issued by one
`handlePortAdvancedSettingsChange` invocation for setting `setting`. -/
def advancedSettingsCallCount (setting : String) : Nat :=
  if setting ∈ advancedSettingNames then 1 else 0

/-- Total remote calls issued for a burst of advanced-settings writes:
each write is processed immediately and independently. -/
def advancedSettingsBurstCalls (writes : List (String × Int)) : Nat :=
  (writes.map (fun w => advancedSettingsCallCount w.1)).sum

/-! ## Theorems -/

/-- Rounding an integer cast to `ℚ` is the identity, so the two-decimal
rounding applied by `toFixed(2)` is exact on `v / 100` for integer `v`. -/
theorem jsToFixed2_int_div (v : ℤ) : jsToFixed2 ((v : ℚ) / 100) = (v : ℚ) / 100 := by
  unfold jsToFixed2
  have h : ((v : ℚ) / 100) * 100 = (v : ℚ) := by ring
  rw [h, round_intCast]

/-- One-decimal rounding applied by `toFixed(1)` is exact on `v / 10` for
integer `v`. -/
theorem jsToFixed1_int_div (v : ℤ) : jsToFixed1 ((v : ℚ) / 10) = (v : ℚ) / 10 := by
  unfold jsToFixed1
  have h : ((v : ℚ) / 10) * 10 = (v : ℚ) := by ring
  rw [h, round_intCast]

/-- C6: for every raw temperature, humidity or VPD field present as a
number in the device snapshot, the reconciled sensor node value equals the
two-decimal rounding of `v / 100` (which is exactly `v / 100` for the
integer raw values, e.g. raw `2350` yields `23.50`); an absent raw field is
not written. -/
theorem sensor_values_scaled_by_100 :
    ∀ (d : DeviceSnapshot) (v : ℤ),
      (resolveSensorField d.temperature d.infoTemperature = some v →
        (updateSensorStates d).1 = some (jsToFixed2 ((v : ℚ) / 100))) ∧
      (resolveSensorField d.humidity d.infoHumidity = some v →
        (updateSensorStates d).2.1 = some (jsToFixed2 ((v : ℚ) / 100))) ∧
      (resolveSensorField d.vpdnums d.infoVpdnums = some v →
        (updateSensorStates d).2.2 = some (jsToFixed2 ((v : ℚ) / 100))) ∧
      (resolveSensorField d.temperature d.infoTemperature = none →
        (updateSensorStates d).1 = none) ∧
      sensorScaledValue v = (v : ℚ) / 100 ∧
      sensorScaledValue 2350 = 23.50 := by
  intro d v
  refine ⟨?_, ?_, ?_, ?_, ?_, ?_⟩
  · intro h; simp [updateSensorStates, h, sensorScaledValue]
  · intro h; simp [updateSensorStates, h, sensorScaledValue]
  · intro h; simp [updateSensorStates, h, sensorScaledValue]
  · intro h; simp [updateSensorStates, h]
  · exact jsToFixed2_int_div v
  · rw [sensorScaledValue, jsToFixed2_int_div]; norm_num

/-- Witness for `sensor_values_scaled_by_100`: a concrete snapshot whose
temperature field is `2350` reconciles the temperature node to `23.50`. -/
theorem sensor_values_scaled_by_100_witness :
    (updateSensorStates ⟨some 2350, none, none, none, none, none⟩).1 =
      some (jsToFixed2 ((2350 : ℚ) / 100)) :=
  (sensor_values_scaled_by_100 ⟨some 2350, none, none, none, none, none⟩
    2350).1 rfl

/-- C7: every raw VPD threshold/target `v` reconciles to the one-decimal
rounding of `v / 10` (exactly `v / 10` for integer `v`, e.g. raw `47`
yields `4.7`); the inverse handler transform is `Math.round(x * 10)`; and
the write-then-reconcile round-trip of any one-decimal kPa value `k / 10`
returns it (setting `4.7` produces raw `47`). -/
theorem vpd_tenths_roundtrip :
    ∀ v k : ℤ,
      vpdReconValue v = (v : ℚ) / 10 ∧
      vpdWriteRaw ((k : ℚ) / 10) = k ∧
      vpdReconValue (vpdWriteRaw ((k : ℚ) / 10)) = (k : ℚ) / 10 ∧
      vpdReconValue 47 = 4.7 ∧
      vpdWriteRaw (4.7 : ℚ) = 47 := by
  have hw : ∀ k : ℤ, vpdWriteRaw ((k : ℚ) / 10) = k := by
    intro k
    unfold vpdWriteRaw jsMathRound
    have h : ((k : ℚ) / 10) * 10 = (k : ℚ) := by ring
    rw [h, round_intCast]
  have hr : ∀ v : ℤ, vpdReconValue v = (v : ℚ) / 10 := fun v =>
    jsToFixed1_int_div v
  intro v k
  refine ⟨hr v, hw k, by rw [hw k]; exact hr k, by rw [hr 47]; norm_num, ?_⟩
  have h47 : (4.7 : ℚ) = (47 : ℤ) / 10 := by norm_num
  rw [h47, hw 47]

/-- C9: timer and cycle durations are sent as `minutes * 60` and
reconciled as `Math.floor(raw / 60)`, so the write-then-reconcile
round-trip is the identity on every non-negative minute count. -/
theorem minutes_seconds_roundtrip :
    ∀ m : ℕ, minutesReconValue (minutesWriteRaw (m : ℤ)) = m := by
  intro m
  unfold minutesReconValue minutesWriteRaw
  rw [Int.mul_fdiv_cancel _ (by norm_num)]

/-- C10: `login()` truncates the password to its first 25 characters before
building the request, so two passwords agreeing on their first 25
characters produce the identical login form body. -/
theorem login_truncates_password :
    ∀ email p₁ p₂ : String,
      p₁.take 25 = p₂.take 25 →
      loginFormData email p₁ = loginFormData email p₂ := by
  intro email p₁ p₂ h
  unfold loginFormData normalizedPassword
  rw [h]

set_option maxRecDepth 4000

/-- Witness for `login_truncates_password`: two concrete passwords that
differ only from position 25 on yield the same login form body. -/
theorem login_truncates_password_witness :
    loginFormData "user@example.com" "aaaaaaaaaaaaaaaaaaaaaaaaaZZZ" =
      loginFormData "user@example.com" "aaaaaaaaaaaaaaaaaaaaaaaaaQ" :=
  login_truncates_password "user@example.com"
    "aaaaaaaaaaaaaaaaaaaaaaaaaZZZ" "aaaaaaaaaaaaaaaaaaaaaaaaaQ" (by decide)

/-- C3: reconciling a snapshot whose mode is `2` ("On") while the live
speed field reads `0` keeps a previously known non-zero `mode.onSpeed`
value unchanged. -/
theorem on_speed_not_clobbered :
    ∀ (prior : ℤ) (p : PortSnapshot),
      (p.atType = some 2 ∨ p.curMode = some 2) →
      p.speak = some 0 →
      prior ≠ 0 →
      reconcileOnSpeed (some prior) p = some prior := by
  intro prior p hmode hspeak hprior
  have hOn : portIsOn p = true := by
    unfold portIsOn
    rcases hmode with h | h <;> simp [h]
  unfold reconcileOnSpeed
  rw [hspeak]
  simp [hOn, hprior]

/-- Witness for `on_speed_not_clobbered`: a prior on-speed of `5` survives
reconciling a snapshot with mode `2` and speed `0`. -/
theorem on_speed_not_clobbered_witness :
    reconcileOnSpeed (some 5) ⟨some 2, some 2, some 0⟩ = some 5 :=
  on_speed_not_clobbered 5 ⟨some 2, some 2, some 0⟩ (Or.inl rfl) rfl
    (by decide)

set_option maxRecDepth 20000

/-- C4: schedule sentinel semantics in both directions.  Reconciling raw
time `65535` yields `enabled = false`; any other raw time `t` yields
`enabled = true` and the zero-padded `HH:MM` string
`floor(t/60):t%60` (raw `90` gives `"01:30"`).  Writing a zero-padded
`"HH:MM"` string sends raw `HH * 60 + MM` (round-trip `"01:30"` gives
`90`).  Toggling an enable flag writes the sentinel `65535` when disabling,
and `0` (start) or `1439` (end) when enabling. -/
theorem schedule_sentinel_semantics :
    ∀ t : ℕ,
      updateScheduleTime (some 65535) = some ⟨false, none⟩ ∧
      ((t : Int) ≠ SCHEDULE_DISABLED_VALUE →
        updateScheduleTime (some t) =
          some ⟨true, some (formatScheduleTime t)⟩) ∧
      formatScheduleTime 90 = "01:30" ∧
      (∀ h < 24, ∀ m < 60,
        scheduleTimeStringRaw (pad2 h ++ ":" ++ pad2 m) =
          some (h * 60 + m)) ∧
      scheduleTimeStringRaw "01:30" = some 90 ∧
      (∀ isStart, scheduleEnableRaw isStart false = SCHEDULE_DISABLED_VALUE) ∧
      scheduleEnableRaw true true = SCHEDULE_MIDNIGHT_VALUE ∧
      scheduleEnableRaw false true = SCHEDULE_EOD_VALUE := by
  intro t
  refine ⟨by decide, ?_, by decide, by decide, by decide, ?_, by decide,
    by decide⟩
  · intro ht
    simp [updateScheduleTime, ht]
  · intro isStart
    cases isStart <;> rfl

/-- Witness for `schedule_sentinel_semantics`: raw `90` reconciles to an
enabled schedule time reading `"01:30"`. -/
theorem schedule_sentinel_semantics_witness :
    updateScheduleTime (some 90) = some ⟨true, some (formatScheduleTime 90)⟩ ∧
    formatScheduleTime 90 = "01:30" :=
  ⟨(schedule_sentinel_semantics 90).2.1 (by decide),
   (schedule_sentinel_semantics 90).2.2.1⟩

/-- C1 counterexample: on a gateway script of two consecutive 401 responses
followed by a success, `apiCall` performs two `login()` retries and returns
success — the claimed behaviour (at most one retry, with the second
authentication failure surfaced as a terminal error) is false on the
code. -/
theorem auth_retry_counterexample :
    apiCall true true [GwResp.authErr, GwResp.authErr, GwResp.ok 7] =
      (2, ApiResult.success 7) ∧
    ¬((apiCall true true [GwResp.authErr, GwResp.authErr, GwResp.ok 7]).1 ≤ 1) ∧
    (apiCall true true
      [GwResp.authErr, GwResp.authErr, GwResp.ok 7]).2 ≠ ApiResult.failure := by
  refine ⟨by decide, by decide, by decide⟩

/-- The retry loop consumes one `authErr` per `login()` retry. -/
theorem apiCallLoop_replicate_auth (k : ℕ) (s : List GwResp) :
    apiCallLoop true (List.replicate k GwResp.authErr ++ s) =
      ((apiCallLoop true s).1 + k, (apiCallLoop true s).2) := by
  induction k with
  | zero => simp
  | succ n ih =>
      rw [List.replicate_succ, List.cons_append]
      simp only [apiCallLoop, if_pos rfl, ih]
      simp [Nat.add_assoc]

/-- C1 amended: `apiCall` performs one `login()` and one re-issue for
*each* authentication failure, without bound: a script of `k` consecutive
401 responses followed by a success yields overall success after exactly
`k` login retries (in particular one 401 then success yields success with
one extra `login()`), while an application error is surfaced immediately
with no retry. -/
theorem auth_retry_per_failure :
    ∀ (k : ℕ) (v : ℤ) (rest : List GwResp),
      apiCall true true
          (List.replicate k GwResp.authErr ++ (GwResp.ok v :: rest)) =
        (k, ApiResult.success v) ∧
      apiCall true true (GwResp.appErr :: rest) = (0, ApiResult.failure) := by
  intro k v rest
  constructor
  · unfold apiCall
    rw [apiCallLoop_replicate_auth]
    simp [apiCallLoop]
  · rfl

/-- C2 counterexample: the advanced-settings handler has no debounce map —
two rapid writes to the same `(deviceId, portId, settings,
dynamicTransitionHumidity)` key issue two remote calls, not one. -/
theorem coalescing_counterexample :
    advancedSettingsBurstCalls
        [("dynamicTransitionHumidity", 40), ("dynamicTransitionHumidity", 41)] = 2 ∧
    (2 : ℕ) ≠ 1 := by
  refine ⟨by decide, by decide⟩

/-- A burst of writes to one key, none of which lands while the key is
processing, leaves exactly one pending timer for the key, capturing the
last value, and touches neither the processing set nor the dispatched
calls. -/
theorem writeBurst_result (key : String) (v : Int) (vs : List Int)
    (s : DebounceState) (h : key ∉ s.processing) :
    writeBurst s key (v :: vs) =
      { pending :=
          (key, (v :: vs).getLast (List.cons_ne_nil v vs)) ::
            s.pending.filter (fun e => e.1 ≠ key)
        processing := s.processing
        calls := s.calls } := by
  induction vs generalizing s v with
  | nil =>
      simp [writeBurst, handlePortModeChange, h]
  | cons w ws ih =>
      have step : writeBurst s key (v :: w :: ws) =
          writeBurst (handlePortModeChange s key v) key (w :: ws) := rfl
      rw [step]
      have hs' : handlePortModeChange s key v =
          { s with pending := (key, v) :: s.pending.filter (fun e => e.1 ≠ key) } := by
        simp [handlePortModeChange, h]
      rw [hs']
      rw [ih w _ (by simpa using h)]
      simp [List.filter]

/-- C2 amended: only mode-category writes are debounced, keyed by
`deviceId_portId_<first path segment under mode>`; within one window a new
write cancels and replaces the pending timer, so a burst of rapid writes to
the same key followed by the timer firing dispatches exactly one remote
action, carrying the most recently written value. -/
theorem mode_write_coalescing :
    ∀ (key : String) (v : Int) (vs : List Int),
      (fireTimerStart (writeBurst DebounceState.init key (v :: vs)) key).calls =
        [(key, (v :: vs).getLast (List.cons_ne_nil v vs))] := by
  intro key v vs
  rw [writeBurst_result key v vs DebounceState.init (by simp [DebounceState.init])]
  simp [fireTimerStart, DebounceState.pendingFor, DebounceState.init,
    List.find?]

/-- C5: a write to a key whose action is in flight is dropped without
queueing anything; the processing guard is removed by the `finally` path
whether the action succeeded or failed, leaving pending timers untouched;
and immediately afterwards a new write to the key schedules again. -/
theorem reentrancy_guard :
    ∀ (s : DebounceState) (key : String) (v : Int) (success : Bool),
      (key ∈ s.processing → handlePortModeChange s key v = s) ∧
      key ∉ (fireTimerFinish s key success).processing ∧
      (fireTimerFinish s key success).pending = s.pending ∧
      (handlePortModeChange (fireTimerFinish s key success) key v).pendingFor
          key = some v := by
  intro s key v success
  refine ⟨?_, ?_, rfl, ?_⟩
  · intro h
    simp [handlePortModeChange, h]
  · simp [fireTimerFinish, List.mem_filter]
  · have hnp : key ∉ (fireTimerFinish s key success).processing := by
      simp [fireTimerFinish, List.mem_filter]
    simp [handlePortModeChange, hnp, DebounceState.pendingFor, List.find?]

/-- Witness for `reentrancy_guard` at a concrete in-flight state: the
second write is dropped, the guard clears on failure, and the key is then
writable again. -/
theorem reentrancy_guard_witness :
    handlePortModeChange ⟨[], ["d_1_onSpeed"], [("d_1_onSpeed", 4)]⟩
        "d_1_onSpeed" 9 = ⟨[], ["d_1_onSpeed"], [("d_1_onSpeed", 4)]⟩ ∧
    (handlePortModeChange
        (fireTimerFinish ⟨[], ["d_1_onSpeed"], [("d_1_onSpeed", 4)]⟩
          "d_1_onSpeed" false) "d_1_onSpeed" 9).pendingFor "d_1_onSpeed" =
      some 9 :=
  ⟨(reentrancy_guard ⟨[], ["d_1_onSpeed"], [("d_1_onSpeed", 4)]⟩
      "d_1_onSpeed" 9 false).1 (by decide),
   (reentrancy_guard ⟨[], ["d_1_onSpeed"], [("d_1_onSpeed", 4)]⟩
      "d_1_onSpeed" 9 false).2.2.2⟩

/-- C8 counterexample: writing `dynamicTransitionTemp = 20` °C sets the
Fahrenheit raw field to `40` (the code doubles the Celsius value), while
the Fahrenheit conversion used elsewhere in the same repository gives
`68` — the Fahrenheit counterpart field does not carry the converted
value. -/
theorem dynamic_temp_conversion_counterexample :
    dynamicTransitionTempAssignments true 20 =
      [("devTt", 20), ("devTth", 40)] ∧
    celsiusToFahrenheit 20 = 68 ∧
    (40 : ℤ) ≠ 68 := by
  refine ⟨by decide, ?_, by decide⟩
  unfold celsiusToFahrenheit jsMathRound
  norm_num [round_eq]

/-- C8 amended: user writes of auto-mode Celsius temperatures
(`tempHighTrigger`, `tempLowTrigger`, `targetTemp`) set both raw fields
with the Fahrenheit field equal to `Math.round(c * 1.8 + 32)` (the
standard conversion: 0 °C ↦ 32, 100 °C ↦ 212); the dynamic
transition/buffer temperature writes also set both raw fields, but the
counterpart is `c * 2` (unit C) or `Math.floor(f / 2)` (unit F), not the
Fahrenheit conversion. -/
theorem temp_dual_field_writes :
    ∀ c : ℤ,
      autoModeTempAssignments "tempHighTrigger" c =
        [("devHt", c), ("devHtf", celsiusToFahrenheit c)] ∧
      autoModeTempAssignments "tempLowTrigger" c =
        [("devLt", c), ("devLtf", celsiusToFahrenheit c)] ∧
      autoModeTempAssignments "targetTemp" c =
        [("targetTemp", c), ("targetTempF", celsiusToFahrenheit c)] ∧
      celsiusToFahrenheit 0 = 32 ∧
      celsiusToFahrenheit 100 = 212 ∧
      dynamicTransitionTempAssignments true c =
        [("devTt", c), ("devTth", c * 2)] ∧
      dynamicBufferTempAssignments true c =
        [("devBt", c), ("devBth", c * 2)] ∧
      dynamicTransitionTempAssignments false c =
        [("devTt", Int.fdiv c 2), ("devTth", c)] ∧
      dynamicBufferTempAssignments false c =
        [("devBt", Int.fdiv c 2), ("devBth", c)] := by
  intro c
  refine ⟨rfl, rfl, rfl, ?_, ?_, rfl, rfl, rfl, rfl⟩
  · unfold celsiusToFahrenheit jsMathRound
    norm_num [round_eq]
  · unfold celsiusToFahrenheit jsMathRound
    norm_num [round_eq]

end ACInfinity
